import Mathlib

/-!
# Verification of the L1 cache dedup wrapper

Shallow embedding of `src/services/L1/src/demo/cache_decorator.py`, the call-site
deduplication core: key resolution from call arguments, SHA-1 based cache-identifier
derivation, the exact-then-approximate lookup protocol with an inclusive similarity
threshold, write-through persistence, and the fail-open error policy.

Remote I/O (the `requests` session) is modelled by an oracle (`CallEnv`) giving the
outcome of each remote interaction of a single decorated call; every observable
action (GET, search POST, invocation of the wrapped function, write POST) is
recorded in an event trace so that claims about actions never happening are
statable.  Exceptions are modelled by `Except Err`, with `Err` an opaque code.
-/

/-! ## SHA-1 (model of Python `hashlib.sha1`, FIPS 180-4)

Bytes are `Nat`s below 256, 32-bit words are `Nat`s reduced mod 4294967296.
-/

/-- Rotate a 32-bit word (a `Nat` below 2^32) left by `k` bits. -/
def rotl32 (k n : Nat) : Nat :=
  ((n <<< k) ||| (n >>> (32 - k))) % 4294967296

/-- Big-endian 8-byte encoding of a natural number (the length field of SHA-1 padding). -/
def be64 (n : Nat) : List Nat :=
  [56, 48, 40, 32, 24, 16, 8, 0].map (fun s => (n >>> s) % 256)

/-- SHA-1 message padding: append 0x80, zeros, and the 64-bit big-endian bit length,
reaching a multiple of 64 bytes. -/
def sha1Pad (msg : List Nat) : List Nat :=
  let z := (64 - ((msg.length + 9) % 64)) % 64
  msg ++ [128] ++ List.replicate z 0 ++ be64 (8 * msg.length)

/-- Group a byte list into big-endian 32-bit words. -/
def bytesToWords : List Nat → List Nat
  | b0 :: b1 :: b2 :: b3 :: rest =>
    (((b0 * 256 + b1) * 256 + b2) * 256 + b3) :: bytesToWords rest
  | _ => []

/-- Extend the 16 message words to 80 by the SHA-1 recurrence, pushing `fuel` more words. -/
def sha1Extend : Nat → Array Nat → Array Nat
  | 0, w => w
  | fuel + 1, w =>
    let i := w.size
    let x := (w.getD (i - 3) 0) ^^^ (w.getD (i - 8) 0) ^^^ (w.getD (i - 14) 0) ^^^ (w.getD (i - 16) 0)
    sha1Extend fuel (w.push (rotl32 1 x))

/-- The SHA-1 round function, by round index. -/
def sha1F (i b c d : Nat) : Nat :=
  if i < 20 then (b &&& c) ||| ((b ^^^ 4294967295) &&& d)
  else if i < 40 then b ^^^ c ^^^ d
  else if i < 60 then (b &&& c) ||| (b &&& d) ||| (c &&& d)
  else b ^^^ c ^^^ d

/-- The SHA-1 round constants, by round index. -/
def sha1K (i : Nat) : Nat :=
  if i < 20 then 1518500249
  else if i < 40 then 1859775393
  else if i < 60 then 2400959708
  else 3395469782

/-- One SHA-1 round on the five-register state. -/
def sha1Round (w : Array Nat) (st : Nat × Nat × Nat × Nat × Nat) (i : Nat) :
    Nat × Nat × Nat × Nat × Nat :=
  let (a, b, c, d, e) := st
  let temp := (rotl32 5 a + sha1F i b c d + e + sha1K i + w.getD i 0) % 4294967296
  (temp, a, rotl32 30 b, c, d)

/-- The running SHA-1 hash state (five 32-bit words). -/
structure Sha1State where
  h0 : Nat
  h1 : Nat
  h2 : Nat
  h3 : Nat
  h4 : Nat

/-- Compress one 64-byte block into the hash state. -/
def sha1Block (st : Sha1State) (block : List Nat) : Sha1State :=
  let w := sha1Extend 64 (Array.mk (bytesToWords block))
  let r := (List.range 80).foldl (sha1Round w) (st.h0, st.h1, st.h2, st.h3, st.h4)
  { h0 := (st.h0 + r.1) % 4294967296
    h1 := (st.h1 + r.2.1) % 4294967296
    h2 := (st.h2 + r.2.2.1) % 4294967296
    h3 := (st.h3 + r.2.2.2.1) % 4294967296
    h4 := (st.h4 + r.2.2.2.2) % 4294967296 }

/-- Fold the compression function over `fuel` consecutive 64-byte blocks. -/
def sha1Blocks : Nat → Sha1State → List Nat → Sha1State
  | 0, st, _ => st
  | fuel + 1, st, bytes => sha1Blocks fuel (sha1Block st (bytes.take 64)) (bytes.drop 64)

/-- Combine the five final 32-bit state words into the 160-bit digest value. -/
def combineDigest (st : Sha1State) : Nat :=
  ((((st.h0 % 4294967296) * 4294967296 + st.h1 % 4294967296) * 4294967296
      + st.h2 % 4294967296) * 4294967296 + st.h3 % 4294967296) * 4294967296
    + st.h4 % 4294967296

/-- The 160-bit SHA-1 digest of a byte string, as a natural number below 2^160. -/
def sha1DigestNat (msg : List Nat) : Nat :=
  combineDigest (sha1Blocks ((sha1Pad msg).length / 64)
    ⟨1732584193, 4023233417, 2562383102, 271733878, 3285377520⟩ (sha1Pad msg))

/-- Lower-case hex digit for a value below 16. -/
def hexDigitChar (n : Nat) : Char :=
  if n < 10 then Char.ofNat (48 + n) else Char.ofNat (87 + n)

/-- Fixed-width big-endian lower-case hex rendering of a natural number. -/
def hexFixed : Nat → Nat → List Char
  | 0, _ => []
  | l + 1, n => hexFixed l (n / 16) ++ [hexDigitChar (n % 16)]

/-- `hashlib.sha1(...).hexdigest()`: the 40-character lower-case hex digest. -/
def sha1Hexdigest (msg : List Nat) : String :=
  String.mk (hexFixed 40 (sha1DigestNat msg))

/-- UTF-8 encoding of one Unicode scalar value (model of Python `str.encode("utf-8")`
per character). -/
def utf8Char (c : Char) : List Nat :=
  let n := c.toNat
  if n < 128 then [n]
  else if n < 2048 then [192 + n / 64, 128 + n % 64]
  else if n < 65536 then [224 + n / 4096, 128 + (n / 64) % 64, 128 + n % 64]
  else [240 + n / 262144, 128 + (n / 4096) % 64, 128 + (n / 64) % 64, 128 + n % 64]

/-- UTF-8 encoding of a string as a byte list. -/
def utf8Encode (s : String) : List Nat :=
  (s.data.map utf8Char).flatten

/-- Source `_make_cache_id(ns, query)`:
`digest = hashlib.sha1(query.encode("utf-8")).hexdigest()` then
`f"dedup:{ns}:{digest}"`. -/
def _make_cache_id (ns query : String) : String :=
  "dedup:" ++ ns ++ ":" ++ sha1Hexdigest (utf8Encode query)

/-! ## Python values and JSON payloads -/

/-- An exception code; which exception was raised is opaque to the wrapper, whose
`except Exception` clauses catch them all. -/
abbrev Err := Nat

/-- A Python value passed as an argument of the decorated call: either a `str`
or some other object (modelled opaquely by a tag) — the source only ever
distinguishes strings via `isinstance(value, str)`. -/
inductive PyVal where
  | str (s : String)
  | other (tag : Nat)
deriving DecidableEq

/-- A JSON value, as produced by `res.json()` on a response body. -/
inductive JVal where
  | null
  | bool (b : Bool)
  | num (q : ℚ)
  | str (s : String)
  | arr (elems : List JVal)
  | obj (fields : List (String × JVal))

/-- Python truthiness of a decoded JSON value (`if results:` and `x or []`). -/
def JVal.truthy : JVal → Bool
  | .null => false
  | .bool b => b
  | .num q => decide (q ≠ 0)
  | .str s => s ≠ ""
  | .arr xs => !xs.isEmpty
  | .obj fs => !fs.isEmpty

/-- `payload.get(k)` on a decoded JSON value: raises `AttributeError` unless the
payload is a dict; returns `None` (here `none`) when the key is absent. -/
def JVal.dictGet (j : JVal) (k : String) : Except Err (Option JVal) :=
  match j with
  | .obj fields => .ok (fields.lookup k)
  | _ => .error 2

/-- `d[k]` on a decoded JSON value: `KeyError` when absent, `TypeError` when not
a dict (model: both are just exceptions caught by the wrapper). -/
def JVal.dictItem (j : JVal) (k : String) : Except Err JVal :=
  match j with
  | .obj fields =>
    match fields.lookup k with
    | some v => .ok v
    | none => .error 3
  | _ => .error 3

/-- How `requests` renders a params value into the query string; only the string
case matters (identifiers are strings), the rest is a deterministic `str()`-like
rendering. -/
def JVal.paramString : JVal → String
  | .str s => s
  | .null => "None"
  | .bool b => if b then "True" else "False"
  | .num q => toString q
  | .arr _ => "<list>"
  | .obj _ => "<dict>"

/-! ## Key resolution (`_extract_query`, `_serialize_args`) -/

/-- Model of Python `str.strip()`: drop leading and trailing whitespace
(computable by structural recursion, unlike `String.trim`). -/
def pyStrip (s : String) : String :=
  String.mk (((s.data.dropWhile Char.isWhitespace).reverse.dropWhile Char.isWhitespace).reverse)

/-- The caller-supplied key function: from the call's arguments to either a raised
exception or a returned Python value. -/
abbrev KeyFn := List PyVal → List (String × PyVal) → Except Err PyVal

/-- Step 1 of `_extract_query` (lines 127–133): call the key function when
provided; use its result when it is a string whose `strip()` is truthy (the
unstripped original is returned); swallow its exceptions. -/
def keyFnQuery (args : List PyVal) (kwargs : List (String × PyVal)) :
    Option KeyFn → Option String
  | none => none
  | some f =>
    match f args kwargs with
    | .error _ => none
    | .ok (.str key) => if pyStrip key ≠ "" then some key else none
    | .ok _ => none

/-- Step 2 of `_extract_query` (lines 136–139): the keyword candidates `prompt`,
`query`, `text` in priority order; the first string value with truthy `strip()`
is returned stripped. -/
def kwargsQuery (kwargs : List (String × PyVal)) : Option String :=
  (["prompt", "query", "text"].filterMap fun candidate =>
    match kwargs.lookup candidate with
    | some (.str value) => if pyStrip value ≠ "" then some (pyStrip value) else none
    | _ => none).head?

/-- Step 3 of `_extract_query` (lines 142–144): the first positional string
argument with truthy `strip()`, returned stripped. -/
def positionalQuery (args : List PyVal) : Option String :=
  (args.filterMap fun arg =>
    match arg with
    | .str s => if pyStrip s ≠ "" then some (pyStrip s) else none
    | _ => none).head?

/-- Source `_extract_query(args, kwargs, key_fn)` (lines 122–146): key function
first, then keyword candidates, then positional arguments, else `None`.
`str.strip()` is modelled by `pyStrip` (leading/trailing whitespace removal). -/
def _extract_query (args : List PyVal) (kwargs : List (String × PyVal))
    (key_fn : Option KeyFn) : Option String :=
  match keyFnQuery args kwargs key_fn with
  | some key => some key
  | none =>
    match kwargsQuery kwargs with
    | some v => some v
    | none => positionalQuery args

/-- Minimal JSON string quoting used by the serialization model (escapes the two
characters that would break the rendering; Python's `json.dumps` escapes more,
which the claims do not depend on). -/
def jsonQuote (s : String) : String :=
  let esc := String.mk (s.data.flatMap fun c =>
    if c = '\\' then ['\\', '\\']
    else if c = '\x22' then ['\\', '\x22']
    else [c])
  "\x22" ++ esc ++ "\x22"

/-- Rendering of one Python argument value by `json.dumps(..., default=str)`:
strings serialize as JSON strings; any other object is rendered through `str()`,
modelled as a deterministic tag-derived string. -/
def PyVal.jsonRender : PyVal → String
  | .str s => jsonQuote s
  | .other tag => jsonQuote ("<object " ++ toString tag ++ ">")

/-- Insert one binding into a key-sorted kwargs list (ascending key order). -/
def insertByKey (kv : String × PyVal) : List (String × PyVal) → List (String × PyVal)
  | [] => [kv]
  | x :: xs => if kv.1 < x.1 then kv :: x :: xs else x :: insertByKey kv xs

/-- Sort a kwargs list by key (the `sort_keys=True` of `json.dumps`; keys of a
Python dict are unique so stability is irrelevant). -/
def sortByKey : List (String × PyVal) → List (String × PyVal)
  | [] => []
  | x :: xs => insertByKey x (sortByKey xs)

/-- Source `_serialize_args(args, kwargs)`:
`json.dumps({"args": args, "kwargs": kwargs}, sort_keys=True, separators=(",", ":"), default=str)`.
With string-keyed kwargs and `default=str` the `except TypeError` fallback branch
of the source is unreachable, so the model is total.  `sort_keys` sorts the kwargs
keys (the top-level keys `args`, `kwargs` are already in sorted order). -/
def _serialize_args (args : List PyVal) (kwargs : List (String × PyVal)) : String :=
  "\x7b\x22args\x22:[" ++ String.intercalate "," (args.map PyVal.jsonRender)
    ++ "],\x22kwargs\x22:\x7b"
    ++ String.intercalate ","
      ((sortByKey kwargs).map fun kv => jsonQuote kv.1 ++ ":" ++ kv.2.jsonRender)
    ++ "\x7d\x7d"

/-- The wrapper's computation of `serialized_args` and `cache_query` (lines 52–56):
`cache_query = _extract_query(...)`; `if not cache_query:` (i.e. `None` or empty)
then `serialized_args = _serialize_args(...)` and `cache_query = serialized_args`. -/
def resolveQuery (args : List PyVal) (kwargs : List (String × PyVal))
    (key_fn : Option KeyFn) : Option String × String :=
  match _extract_query args kwargs key_fn with
  | none =>
    let s := _serialize_args args kwargs
    (some s, s)
  | some q =>
    if q = "" then
      let s := _serialize_args args kwargs
      (some s, s)
    else (none, q)

/-! ## The remote-service oracle and the event trace -/

/-- The observable outcome of one HTTP request: the status code and the result of
`res.json()` on its body (which may itself raise on a malformed payload). -/
structure HttpResp where
  status : Nat
  jsonBody : Except Err JVal

/-- The oracle for one decorated call: the outcome of each remote interaction and
of the wrapped operation.  `get id` is the response to
`GET /cache.get?ns=..&item_id=id` (`Except.error` = the request itself raised,
e.g. a network error or timeout); similarly for the two POSTs.  `fnResult` is the
outcome of `fn(*args, **kwargs)`. -/
structure CallEnv where
  get : String → Except Err HttpResp
  searchResp : Except Err HttpResp
  writeResp : Except Err HttpResp
  fnResult : Except Err String

/-- The body of a `POST /cache.write` request (lines 90–103). -/
structure WriteBody where
  ns : String
  item_id : String
  text : String
  meta : List (String × JVal)
  ttl_s : Option Int

/-- One observable action of the wrapper, in order of occurrence. -/
inductive Event where
  | fetch (item_id : String)
  | searchReq (ns query : String) (top_k : Nat)
  | callFn
  | writeReq (body : WriteBody)

/-- Is this event an invocation of the wrapped operation? -/
def Event.isCallFn : Event → Bool
  | .callFn => true
  | _ => false

/-- Is this event a similarity-search request? -/
def Event.isSearch : Event → Bool
  | .searchReq _ _ _ => true
  | _ => false

/-- Is this event a cache-write request? -/
def Event.isWrite : Event → Bool
  | .writeReq _ => true
  | _ => false

/-- Is this event a cache.get fetch? -/
def Event.isFetch : Event → Bool
  | .fetch _ => true
  | _ => false

/-! ## `_fetch_cache_record` -/

/-- Source `_fetch_cache_record(sess, ns, base_url, item_id)` (lines 156–167):
GET `cache.get`; 404 means not found (`None`); `raise_for_status()` raises on any
other 4xx/5xx; `payload.get("meta")` raises `AttributeError` when the decoded
2xx body is not a dict (caught by the wrapper as a miss); the `isinstance`-guarded
`meta.get("response")` is returned when it is a string, else `None`. -/
def _fetch_cache_record (get : String → Except Err HttpResp) (item_id : String) :
    Except Err (Option String) := do
  let res ← get item_id
  if res.status = 404 then return none
  if 400 ≤ res.status ∧ res.status < 600 then throw 4
  let payload ← res.jsonBody
  match ← payload.dictGet "meta" with
  | some (.obj metaFields) =>
    match metaFields.lookup "response" with
    | some (.str response) => return (some response)
    | _ => return none
  | _ => return none

/-! ## The lookup phase (the `try` block, lines 59–83) -/

/-- The value of `best.get("score", float("inf"))` after `float(...)`: either
positive infinity (score key absent) or a finite value. -/
inductive ScoreV where
  | inf
  | val (q : ℚ)

/-- `float(best.get("score", float("inf")))` (line 73): `AttributeError` when the
candidate is not a dict; default infinity when the key is absent; JSON numbers
convert exactly, booleans to 1/0; `float()` on other payload shapes
(null/list/dict, and JSON-string scores, which the service protocol does not
produce) is modelled as raising. -/
def scoreOf (best : JVal) : Except Err ScoreV :=
  match best with
  | .obj fields =>
    match fields.lookup "score" with
    | none => .ok .inf
    | some (.num q) => .ok (.val q)
    | some (.bool b) => .ok (.val (if b then 1 else 0))
    | some _ => .error 5
  | _ => .error 5

/-- `score <= max_distance` on the model of float scores. -/
def ScoreV.le (s : ScoreV) (d : ℚ) : Bool :=
  match s with
  | .inf => false
  | .val q => decide (q ≤ d)

/-- `res.json().get("results") or []` followed by `results[0]` (lines 70–72):
`None`/missing or any falsy value gives the empty list; a JSON array gives its
elements; a truthy non-array value leads to an exception when indexed or when
`best.get` is reached (modelled as raising here, with no intervening
observable action in the source either). -/
def resultsAsList (v : Option JVal) : Except Err (List JVal) :=
  match v with
  | none => .ok []
  | some (.arr xs) => .ok xs
  | some j => if j.truthy then .error 6 else .ok []

/-- Static configuration captured by the decorator closure. -/
structure Config where
  ns : String
  max_distance : ℚ
  ttl_seconds : Option Int
  top_k : Nat

/-- The body of the wrapper's lookup `try` block (lines 59–81), with its event
trace.  `Except.error` is an exception reaching the `except` clause (treated as a
miss by the wrapper); `.ok (some s)` is a hit returned immediately; `.ok none`
falls through to the miss path without an exception. -/
def lookupPhase (cfg : Config) (env : CallEnv) (cache_query : String) :
    Except Err (Option String) × List Event :=
  match _fetch_cache_record env.get (_make_cache_id cfg.ns cache_query) with
  | .error e => (.error e, [Event.fetch (_make_cache_id cfg.ns cache_query)])
  | .ok (some direct) => (.ok (some direct), [Event.fetch (_make_cache_id cfg.ns cache_query)])
  | .ok none =>
    match env.searchResp with
    | .error e => (.error e, [Event.fetch (_make_cache_id cfg.ns cache_query),
        Event.searchReq cfg.ns cache_query cfg.top_k])
    | .ok res =>
      if 400 ≤ res.status ∧ res.status < 600 then
        (.error 4, [Event.fetch (_make_cache_id cfg.ns cache_query),
          Event.searchReq cfg.ns cache_query cfg.top_k])
      else
        match res.jsonBody with
        | .error e => (.error e, [Event.fetch (_make_cache_id cfg.ns cache_query),
            Event.searchReq cfg.ns cache_query cfg.top_k])
        | .ok payload =>
          match payload.dictGet "results" with
          | .error e => (.error e, [Event.fetch (_make_cache_id cfg.ns cache_query),
              Event.searchReq cfg.ns cache_query cfg.top_k])
          | .ok resultsVal =>
            match resultsAsList resultsVal with
            | .error e => (.error e, [Event.fetch (_make_cache_id cfg.ns cache_query),
                Event.searchReq cfg.ns cache_query cfg.top_k])
            | .ok [] => (.ok none, [Event.fetch (_make_cache_id cfg.ns cache_query),
                Event.searchReq cfg.ns cache_query cfg.top_k])
            | .ok (best :: _) =>
              match scoreOf best with
              | .error e => (.error e, [Event.fetch (_make_cache_id cfg.ns cache_query),
                  Event.searchReq cfg.ns cache_query cfg.top_k])
              | .ok score =>
                if score.le cfg.max_distance then
                  match best.dictItem "item_id" with
                  | .error e => (.error e, [Event.fetch (_make_cache_id cfg.ns cache_query),
                      Event.searchReq cfg.ns cache_query cfg.top_k])
                  | .ok iid =>
                    match _fetch_cache_record env.get iid.paramString with
                    | .error e => (.error e, [Event.fetch (_make_cache_id cfg.ns cache_query),
                        Event.searchReq cfg.ns cache_query cfg.top_k, Event.fetch iid.paramString])
                    | .ok (some doc) =>
                      (.ok (some doc), [Event.fetch (_make_cache_id cfg.ns cache_query),
                        Event.searchReq cfg.ns cache_query cfg.top_k, Event.fetch iid.paramString])
                    | .ok none =>
                      (.ok none, [Event.fetch (_make_cache_id cfg.ns cache_query),
                        Event.searchReq cfg.ns cache_query cfg.top_k, Event.fetch iid.paramString])
                else (.ok none, [Event.fetch (_make_cache_id cfg.ns cache_query),
                    Event.searchReq cfg.ns cache_query cfg.top_k])

/-! ## The write-through phase (the second `try` block, lines 88–113) -/

/-- The `meta` dict of the write body (lines 94–98 and the conditional
`serialized_args` addition of lines 102–103): keys in insertion order. -/
def writeMeta (result cache_query cache_id : String) (serialized_args : Option String) :
    List (String × JVal) :=
  let base := [("response", JVal.str result), ("query", JVal.str cache_query),
    ("cache_id", JVal.str cache_id)]
  match serialized_args with
  | some s => if s ≠ "" ∧ cache_query ≠ s then base ++ [("serialized_args", JVal.str s)] else base
  | none => base

/-- The full `POST /cache.write` body (lines 90–103): `ttl_s` included exactly
when `ttl_seconds is not None`. -/
def buildWriteBody (cfg : Config) (cache_query : String) (serialized_args : Option String)
    (result : String) : WriteBody :=
  let cache_id := _make_cache_id cfg.ns cache_query
  { ns := cfg.ns
    item_id := cache_id
    text := cache_query
    meta := writeMeta result cache_query cache_id serialized_args
    ttl_s := cfg.ttl_seconds }

/-- The response handling inside the write `try` block (lines 105–111):
`raise_for_status()`, then `write_res.json()`, then `.get(...)` on the payload in
the log line — every outcome is swallowed by the `except` clause and has no
effect on the wrapper's return value. -/
def writeOutcome (env : CallEnv) : Except Err Unit := do
  let res ← env.writeResp
  if 400 ≤ res.status ∧ res.status < 600 then throw 4
  let payload ← res.jsonBody
  let _ ← payload.dictGet "item_id"
  return ()

/-- The write-through phase: its only observable action is the single write
request; the outcome of `writeOutcome` on the response is discarded by the
`except` clause, so it does not appear in the result. -/
def writePhase (cfg : Config) (cache_query : String)
    (serialized_args : Option String) (result : String) : List Event :=
  [Event.writeReq (buildWriteBody cfg cache_query serialized_args result)]

/-! ## The wrapper and the decorator factory -/

/-- Source `wrapper(*args, **kwargs)` (lines 51–115): resolve the cache query,
attempt the lookup (exceptions caught = miss), on a hit return the cached string,
on a miss invoke `fn` (its exceptions propagate), then best-effort write-through,
and return `fn`'s result. -/
def wrapper (cfg : Config) (key_fn : Option KeyFn) (env : CallEnv)
    (args : List PyVal) (kwargs : List (String × PyVal)) :
    Except Err String × List Event :=
  match (lookupPhase cfg env (resolveQuery args kwargs key_fn).2).1 with
  | .ok (some hit) => (.ok hit, (lookupPhase cfg env (resolveQuery args kwargs key_fn).2).2)
  | _ =>
    match env.fnResult with
    | .error e =>
      (.error e, (lookupPhase cfg env (resolveQuery args kwargs key_fn).2).2 ++ [Event.callFn])
    | .ok result =>
      (.ok result, (lookupPhase cfg env (resolveQuery args kwargs key_fn).2).2 ++ [Event.callFn]
        ++ writePhase cfg (resolveQuery args kwargs key_fn).2 (resolveQuery args kwargs key_fn).1 result)

/-- Source `wrap_with_cache_dedup(...)` (lines 29–47): raises `ValueError` when
`ns` is falsy (empty/missing), otherwise returns the decorator, i.e. for each
`fn` the wrapper above. -/
def wrap_with_cache_dedup (ns : String) (max_distance : ℚ) (ttl_seconds : Option Int)
    (top_k : Nat) (key_fn : Option KeyFn) :
    Except Err (CallEnv → List PyVal → List (String × PyVal) → Except Err String × List Event) :=
  if ns = "" then .error 1
  else .ok (fun env args kwargs =>
    wrapper { ns := ns, max_distance := max_distance, ttl_seconds := ttl_seconds,
              top_k := top_k } key_fn env args kwargs)

/-- Whether a lookup-phase outcome is a cache hit (the wrapper returns early). -/
def isHitOutcome : Except Err (Option String) → Bool
  | .ok (some _) => true
  | _ => false

/-- Spec-side formulation of the Cache Identifier Deriver (spec section 4.2): the
identifier is `dedup:<namespace>:<hex-digest>` where the digest is the SHA-1 hex
digest of the UTF-8 bytes of the query. -/
def derive_spec (ns query : String) : String :=
  "dedup:" ++ ns ++ ":" ++ sha1Hexdigest (utf8Encode query)

/-! ### Concrete fixtures used by witnesses -/

/-- A 200 response whose payload carries the given string at `meta.response`. -/
def hitResp (s : String) : HttpResp :=
  ⟨200, .ok (JVal.obj [("meta", JVal.obj [("response", JVal.str s)])])⟩

/-- A 404 response (not found; body irrelevant). -/
def resp404 : HttpResp := ⟨404, .error 0⟩

/-- A GET oracle that always raises (unreachable service). -/
def getRaise : String → Except Err HttpResp := fun _ => .error 9

/-- A GET oracle that always finds a record with response `cached`. -/
def getHit : String → Except Err HttpResp := fun _ => .ok (hitResp ("cached"))

/-- A GET oracle with exactly one record, under the given identifier. -/
def getOnly (item_id s : String) : String → Except Err HttpResp :=
  fun i => if i = item_id then .ok (hitResp s) else .ok resp404

/-- A small decorator configuration used by witnesses. -/
def cfgW : Config := { ns := "demo", max_distance := 1/2, ttl_seconds := some 3600, top_k := 1 }

/-- Witness environment: unreachable service, wrapped operation raises error 7. -/
def envAllFail : CallEnv :=
  { get := getRaise, searchResp := .error 9, writeResp := .error 9, fnResult := .error 7 }

/-- Witness environment: unreachable service, wrapped operation returns `fresh`. -/
def envLookupDown : CallEnv :=
  { get := getRaise, searchResp := .error 9, writeResp := .error 9, fnResult := .ok ("fresh") }

/-- Witness environment: exact record present for every identifier. -/
def envExactHit : CallEnv :=
  { get := getHit, searchResp := .error 9, writeResp := .error 9, fnResult := .ok ("fresh") }

/-- Witness environment: the cache.get endpoint answers 200 with a JSON array
body, so `payload.get("meta")` raises `AttributeError` inside the lookup. -/
def envBadPayload : CallEnv :=
  { get := fun _ => .ok ⟨200, .ok (JVal.arr [])⟩
    searchResp := .error 9
    writeResp := .error 9
    fnResult := .ok ("fresh") }

/-- A search response whose results list is exactly the given candidates. -/
def searchRespOf (cands : List JVal) : Except Err HttpResp :=
  .ok ⟨200, .ok (JVal.obj [("results", JVal.arr cands)])⟩

/-- A search candidate object with a string item id and a rational score. -/
def candidate (item_id : String) (score : ℚ) : JVal :=
  JVal.obj [("item_id", JVal.str item_id), ("score", JVal.num score)]

/-- The environment of the approximate-path witness, parametrized by the best
candidate's score and by the later candidates. -/
def envApprox (score : ℚ) (rest : List JVal) : CallEnv :=
  { get := getOnly ("X") ("cached")
    searchResp := searchRespOf (candidate ("X") score :: rest)
    writeResp := .error 9
    fnResult := .ok ("fresh") }

/-- A key function that returns the fixed key `K`. -/
def keyFnOkW : KeyFn := fun _ _ => .ok (.str ("K"))

/-- A key function that raises. -/
def keyFnRaiseW : KeyFn := fun _ _ => .error 3

/-- Injection of 161 booleans into distinct non-empty ASCII strings, used by the
pigeonhole argument against unconditional injectivity of the identifier. -/
def boolStr (b : Fin 161 → Bool) : String :=
  String.mk (List.ofFn fun i => if b i then 'b' else 'a')

set_option maxRecDepth 4096

/-- FIPS 180-4 test vector validating the SHA-1 model: SHA1("abc"). -/
theorem sha1_test_vector_abc :
    sha1Hexdigest (utf8Encode ("abc")) = "a9993e364706816aba3e25717850c26c9cd0d89d" := by
  decide

/-! ## Structural lemmas about the wrapper -/

/-- On a lookup hit the wrapper returns the cached string with only the lookup trace. -/
theorem wrapper_hit (cfg : Config) (kf : Option KeyFn) (env : CallEnv)
    (args : List PyVal) (kwargs : List (String × PyVal)) (s : String)
    (h : (lookupPhase cfg env (resolveQuery args kwargs kf).2).1 = .ok (some s)) :
    wrapper cfg kf env args kwargs =
      (.ok s, (lookupPhase cfg env (resolveQuery args kwargs kf).2).2) := by
  unfold wrapper
  rw [h]

/-- On a lookup miss (fall-through or caught exception) the wrapper invokes `fn`
and, when `fn` succeeds, performs the write-through and returns `fn`'s result. -/
theorem wrapper_miss (cfg : Config) (kf : Option KeyFn) (env : CallEnv)
    (args : List PyVal) (kwargs : List (String × PyVal))
    (h : isHitOutcome (lookupPhase cfg env (resolveQuery args kwargs kf).2).1 = false) :
    wrapper cfg kf env args kwargs =
      (match env.fnResult with
       | .error e =>
         (.error e, (lookupPhase cfg env (resolveQuery args kwargs kf).2).2 ++ [Event.callFn])
       | .ok r => (.ok r, (lookupPhase cfg env (resolveQuery args kwargs kf).2).2 ++ [Event.callFn]
           ++ writePhase cfg (resolveQuery args kwargs kf).2 (resolveQuery args kwargs kf).1 r)) := by
  unfold wrapper
  rcases hlp : (lookupPhase cfg env (resolveQuery args kwargs kf).2).1 with e | os
  · rfl
  · rcases os with _ | s
    · rfl
    · rw [hlp] at h; simp [isHitOutcome] at h

/-- The lookup phase emits one fetch, or fetch-then-search, or
fetch-search-fetch; nothing else. -/
theorem lookupPhase_snd (cfg : Config) (env : CallEnv) (q : String) :
    (lookupPhase cfg env q).2 = [Event.fetch (_make_cache_id cfg.ns q)] ∨
    (lookupPhase cfg env q).2 =
      [Event.fetch (_make_cache_id cfg.ns q), Event.searchReq cfg.ns q cfg.top_k] ∨
    ∃ i, (lookupPhase cfg env q).2 =
      [Event.fetch (_make_cache_id cfg.ns q), Event.searchReq cfg.ns q cfg.top_k, Event.fetch i] := by
  unfold lookupPhase
  rcases hf : _fetch_cache_record env.get (_make_cache_id cfg.ns q) with e | (_ | s)
  · simp [hf]
  · simp only [hf]
    repeat' split
    all_goals simp
  · simp [hf]

/-- The lookup phase never invokes the wrapped operation. -/
theorem lookupPhase_countP_callFn (cfg : Config) (env : CallEnv) (q : String) :
    List.countP Event.isCallFn (lookupPhase cfg env q).2 = 0 := by
  rcases lookupPhase_snd cfg env q with h | h | ⟨i, h⟩ <;> rw [h] <;> rfl

/-- The lookup phase never issues a cache write. -/
theorem lookupPhase_countP_write (cfg : Config) (env : CallEnv) (q : String) :
    List.countP Event.isWrite (lookupPhase cfg env q).2 = 0 := by
  rcases lookupPhase_snd cfg env q with h | h | ⟨i, h⟩ <;> rw [h] <;> rfl

/-- No write request ever appears in the lookup phase's trace. -/
theorem lookupPhase_not_writeReq (cfg : Config) (env : CallEnv) (q : String) (b : WriteBody) :
    Event.writeReq b ∉ (lookupPhase cfg env q).2 := by
  rcases lookupPhase_snd cfg env q with h | h | ⟨i, h⟩ <;> rw [h] <;> simp

/-- Any error the wrapper surfaces is the wrapped operation's own error. -/
theorem wrapper_error_from_fn (cfg : Config) (kf : Option KeyFn) (env : CallEnv)
    (args : List PyVal) (kwargs : List (String × PyVal)) (e : Err)
    (h : (wrapper cfg kf env args kwargs).1 = .error e) : env.fnResult = .error e := by
  rcases hlp : (lookupPhase cfg env (resolveQuery args kwargs kf).2).1 with e1 | (_ | s)
  · have hm : isHitOutcome (lookupPhase cfg env (resolveQuery args kwargs kf).2).1 = false := by
      rw [hlp]; rfl
    rw [wrapper_miss cfg kf env args kwargs hm] at h
    rcases hfn : env.fnResult with e2 | r <;> rw [hfn] at h <;> simp at h
    rw [h]
  · have hm : isHitOutcome (lookupPhase cfg env (resolveQuery args kwargs kf).2).1 = false := by
      rw [hlp]; rfl
    rw [wrapper_miss cfg kf env args kwargs hm] at h
    rcases hfn : env.fnResult with e2 | r <;> rw [hfn] at h <;> simp at h
    rw [h]
  · rw [wrapper_hit cfg kf env args kwargs s hlp] at h
    simp at h

/-- When the serialization fallback was taken, the serialized form is the cache query. -/
theorem resolveQuery_fst_eq_snd (args : List PyVal) (kwargs : List (String × PyVal))
    (kf : Option KeyFn) (s : String) (h : (resolveQuery args kwargs kf).1 = some s) :
    (resolveQuery args kwargs kf).2 = s := by
  unfold resolveQuery at h ⊢
  rcases hx : _extract_query args kwargs kf with _ | q <;> simp only [hx] at h ⊢
  · simpa using h
  · by_cases hq : q = ""
    · simp [hq] at h
      simpa [hq] using h
    · simp [hq] at h

/-- Every write body in a wrapper trace is the write-through body built from the
wrapped operation's successful result and the resolved query. -/
theorem wrapper_write_bodies (cfg : Config) (kf : Option KeyFn) (env : CallEnv)
    (args : List PyVal) (kwargs : List (String × PyVal)) (body : WriteBody)
    (h : Event.writeReq body ∈ (wrapper cfg kf env args kwargs).2) :
    ∃ r, env.fnResult = .ok r ∧
      body = buildWriteBody cfg (resolveQuery args kwargs kf).2 (resolveQuery args kwargs kf).1 r := by
  rcases hlp : (lookupPhase cfg env (resolveQuery args kwargs kf).2).1 with e1 | (_ | s)
  · have hm : isHitOutcome (lookupPhase cfg env (resolveQuery args kwargs kf).2).1 = false := by
      rw [hlp]; rfl
    rw [wrapper_miss cfg kf env args kwargs hm] at h
    rcases hfn : env.fnResult with e2 | r <;> rw [hfn] at h <;>
      simp [writePhase, List.mem_append] at h
    · exact absurd h (lookupPhase_not_writeReq _ _ _ _)
    · rcases h with h | h
      · exact absurd h (lookupPhase_not_writeReq _ _ _ _)
      · exact ⟨r, rfl, h⟩
  · have hm : isHitOutcome (lookupPhase cfg env (resolveQuery args kwargs kf).2).1 = false := by
      rw [hlp]; rfl
    rw [wrapper_miss cfg kf env args kwargs hm] at h
    rcases hfn : env.fnResult with e2 | r <;> rw [hfn] at h <;>
      simp [writePhase, List.mem_append] at h
    · exact absurd h (lookupPhase_not_writeReq _ _ _ _)
    · rcases h with h | h
      · exact absurd h (lookupPhase_not_writeReq _ _ _ _)
      · exact ⟨r, rfl, h⟩
  · rw [wrapper_hit cfg kf env args kwargs s hlp] at h
    exact absurd h (lookupPhase_not_writeReq _ _ _ _)

/-- The meta dict keys when the serialized form, if present, equals the query. -/
theorem writeMeta_keys (result cq cid : String) (sa : Option String)
    (hsa : ∀ s, sa = some s → cq = s) :
    (writeMeta result cq cid sa).map Prod.fst = ["response", "query", "cache_id"] := by
  rcases sa with _ | s
  · rfl
  · have hs := hsa s rfl
    subst hs
    simp [writeMeta]

/-! ## The claims -/

/-- C1: any exception during the cache-lookup phase (identifier derivation,
exact fetch, or similarity search) is caught and the call is treated as a miss:
the wrapped operation is invoked exactly once and its outcome is the wrapper's
outcome; conversely, no lookup exception ever propagates — an error surfaced by
the wrapper is the wrapped operation's own error. -/
theorem C1_lookup_failopen (cfg : Config) (kf : Option KeyFn) (env : CallEnv)
    (args : List PyVal) (kwargs : List (String × PyVal)) :
    ((∃ e, (lookupPhase cfg env (resolveQuery args kwargs kf).2).1 = .error e) →
      (wrapper cfg kf env args kwargs).1 = env.fnResult ∧
      List.countP Event.isCallFn (wrapper cfg kf env args kwargs).2 = 1) ∧
    (∀ e, (wrapper cfg kf env args kwargs).1 = .error e → env.fnResult = .error e) := by
  constructor
  · rintro ⟨e, he⟩
    have hm : isHitOutcome (lookupPhase cfg env (resolveQuery args kwargs kf).2).1 = false := by
      rw [he]; rfl
    have hw := wrapper_miss cfg kf env args kwargs hm
    rcases hfn : env.fnResult with e2 | r <;> rw [hfn] at hw <;> rw [hw]
    · exact ⟨rfl, by simp [List.countP_append, lookupPhase_countP_callFn, List.countP_cons,
        Event.isCallFn]⟩
    · exact ⟨rfl, by simp [writePhase, List.countP_append, lookupPhase_countP_callFn,
        List.countP_cons, Event.isCallFn]⟩
  · exact wrapper_error_from_fn cfg kf env args kwargs

/-- C1 witness: with an unreachable service the lookup raises; the wrapped
operation still runs and its error outcome is the wrapper's outcome.  A second
environment exercises the `AttributeError` on a non-dict 2xx cache.get payload:
the exact-match fetch raises, the search is skipped, and `fn`'s value is
returned. -/
theorem C1_lookup_failopen_witness :
    (lookupPhase cfgW envAllFail (resolveQuery [] [] none).2).1 = .error 9 ∧
    (wrapper cfgW none envAllFail [] []).1 = envAllFail.fnResult ∧
    List.countP Event.isCallFn (wrapper cfgW none envAllFail [] []).2 = 1 ∧
    envAllFail.fnResult = .error 7 ∧
    (lookupPhase cfgW envBadPayload (resolveQuery [] [] none).2).1 = .error 2 ∧
    (wrapper cfgW none envBadPayload [] []).1 = envBadPayload.fnResult ∧
    List.countP Event.isCallFn (wrapper cfgW none envBadPayload [] []).2 = 1 ∧
    List.countP Event.isSearch (wrapper cfgW none envBadPayload [] []).2 = 0 ∧
    envBadPayload.fnResult = .ok ("fresh") := by
  refine ⟨rfl, ?_, ?_, rfl, rfl, ?_, ?_, rfl, rfl⟩
  · exact ((C1_lookup_failopen cfgW none envAllFail [] []).1 ⟨9, rfl⟩).1
  · exact ((C1_lookup_failopen cfgW none envAllFail [] []).1 ⟨9, rfl⟩).2
  · exact ((C1_lookup_failopen cfgW none envBadPayload [] []).1 ⟨2, rfl⟩).1
  · exact ((C1_lookup_failopen cfgW none envBadPayload [] []).1 ⟨2, rfl⟩).2

/-- C2: when the exact-match fetch by the derived identifier returns a record
with a string meta.response, the wrapper returns that string immediately: the
similarity search is never performed, no write is issued, and the wrapped
operation is never invoked. -/
theorem C2_exact_hit_short_circuits (cfg : Config) (kf : Option KeyFn) (env : CallEnv)
    (args : List PyVal) (kwargs : List (String × PyVal)) (s : String)
    (h : _fetch_cache_record env.get
        (_make_cache_id cfg.ns (resolveQuery args kwargs kf).2) = .ok (some s)) :
    (wrapper cfg kf env args kwargs).1 = .ok s ∧
    List.countP Event.isSearch (wrapper cfg kf env args kwargs).2 = 0 ∧
    List.countP Event.isWrite (wrapper cfg kf env args kwargs).2 = 0 ∧
    List.countP Event.isCallFn (wrapper cfg kf env args kwargs).2 = 0 := by
  have hlp : lookupPhase cfg env (resolveQuery args kwargs kf).2 =
      (.ok (some s), [Event.fetch (_make_cache_id cfg.ns (resolveQuery args kwargs kf).2)]) := by
    unfold lookupPhase
    rw [h]
  have hw := wrapper_hit cfg kf env args kwargs s (by rw [hlp])
  rw [hw, hlp]
  exact ⟨rfl, rfl, rfl, rfl⟩

/-- C2 witness: a service holding an exact record for the derived identifier;
the wrapper returns the cached string with no search, write, or fn call. -/
theorem C2_exact_hit_short_circuits_witness :
    _fetch_cache_record envExactHit.get
      (_make_cache_id cfgW.ns (resolveQuery [PyVal.str ("hello")] [] none).2)
      = .ok (some ("cached")) ∧
    (wrapper cfgW none envExactHit [PyVal.str ("hello")] []).1 = .ok ("cached") ∧
    List.countP Event.isSearch (wrapper cfgW none envExactHit [PyVal.str ("hello")] []).2 = 0 ∧
    List.countP Event.isWrite (wrapper cfgW none envExactHit [PyVal.str ("hello")] []).2 = 0 ∧
    List.countP Event.isCallFn (wrapper cfgW none envExactHit [PyVal.str ("hello")] []).2 = 0 := by
  have h : _fetch_cache_record envExactHit.get
      (_make_cache_id cfgW.ns (resolveQuery [PyVal.str ("hello")] [] none).2)
      = .ok (some ("cached")) := rfl
  have hc := C2_exact_hit_short_circuits cfgW none envExactHit [PyVal.str ("hello")] []
    ("cached") h
  exact ⟨h, hc.1, hc.2.1, hc.2.2.1, hc.2.2.2⟩

/-- C4: when the wrapped operation itself raises on a miss call, its exception
propagates unchanged to the caller and no write-through occurs. -/
theorem C4_fn_error_propagates (cfg : Config) (kf : Option KeyFn) (env : CallEnv)
    (args : List PyVal) (kwargs : List (String × PyVal)) (e : Err)
    (hmiss : isHitOutcome (lookupPhase cfg env (resolveQuery args kwargs kf).2).1 = false)
    (hfn : env.fnResult = .error e) :
    (wrapper cfg kf env args kwargs).1 = .error e ∧
    List.countP Event.isWrite (wrapper cfg kf env args kwargs).2 = 0 := by
  have hw := wrapper_miss cfg kf env args kwargs hmiss
  rw [hfn] at hw
  rw [hw]
  exact ⟨rfl, by simp [List.countP_append, lookupPhase_countP_write, List.countP_cons,
    Event.isWrite]⟩

/-- C4 witness: unreachable service (miss) and a wrapped operation raising
error 7; the wrapper surfaces error 7 and issues no write. -/
theorem C4_fn_error_propagates_witness :
    isHitOutcome (lookupPhase cfgW envAllFail (resolveQuery [] [] none).2).1 = false ∧
    envAllFail.fnResult = .error 7 ∧
    (wrapper cfgW none envAllFail [] []).1 = .error 7 ∧
    List.countP Event.isWrite (wrapper cfgW none envAllFail [] []).2 = 0 := by
  have hc := C4_fn_error_propagates cfgW none envAllFail [] [] 7 rfl rfl
  exact ⟨rfl, rfl, hc.1, hc.2⟩

/-- C5: on a miss call the wrapper returns exactly the wrapped operation's
value, and the entire call (value and trace) is independent of the write
outcome — write failures are absorbed. -/
theorem C5_write_failopen (cfg : Config) (kf : Option KeyFn) (env : CallEnv)
    (args : List PyVal) (kwargs : List (String × PyVal)) (r : String)
    (hmiss : isHitOutcome (lookupPhase cfg env (resolveQuery args kwargs kf).2).1 = false)
    (hfn : env.fnResult = .ok r) :
    (wrapper cfg kf env args kwargs).1 = .ok r ∧
    (∀ w1 w2 : Except Err HttpResp,
      wrapper cfg kf { env with writeResp := w1 } args kwargs =
        wrapper cfg kf { env with writeResp := w2 } args kwargs) := by
  constructor
  · have hw := wrapper_miss cfg kf env args kwargs hmiss
    rw [hfn] at hw
    rw [hw]
  · intro w1 w2
    rfl

/-- C5 witness: unreachable service for lookup and write; the wrapper still
returns the operation's value, unchanged between a raising and a rejecting
write endpoint. -/
theorem C5_write_failopen_witness :
    isHitOutcome (lookupPhase cfgW envLookupDown (resolveQuery [] [] none).2).1 = false ∧
    envLookupDown.fnResult = .ok ("fresh") ∧
    (wrapper cfgW none envLookupDown [] []).1 = .ok ("fresh") ∧
    wrapper cfgW none { envLookupDown with writeResp := .error 9 } [] [] =
      wrapper cfgW none { envLookupDown with writeResp := .ok ⟨500, .error 0⟩ } [] [] := by
  have hc := C5_write_failopen cfgW none envLookupDown [] [] ("fresh") rfl rfl
  exact ⟨rfl, rfl, hc.1, hc.2 (.error 9) (.ok ⟨500, .error 0⟩)⟩

/-- C6: decorator construction fails exactly on an empty namespace (the only
cache-layer error ever surfaced); for every non-empty namespace construction
succeeds, and any error surfaced by a constructed decorated call is the wrapped
operation's own. -/
theorem C6_namespace_validation (ns : String) (d : ℚ) (ttl : Option Int) (k : Nat)
    (kf : Option KeyFn) :
    ((∃ e, wrap_with_cache_dedup ns d ttl k kf = .error e) ↔ ns = "") ∧
    ((∃ deco, wrap_with_cache_dedup ns d ttl k kf = .ok deco) ↔ ns ≠ "") ∧
    (∀ deco, wrap_with_cache_dedup ns d ttl k kf = .ok deco →
      ∀ env args kwargs e, (deco env args kwargs).1 = .error e → env.fnResult = .error e) := by
  refine ⟨?_, ?_, ?_⟩
  · constructor
    · rintro ⟨e, he⟩
      by_contra hns
      simp [wrap_with_cache_dedup, hns] at he
    · intro hns
      exact ⟨1, by simp [wrap_with_cache_dedup, hns]⟩
  · constructor
    · rintro ⟨deco, hd⟩ hns
      simp [wrap_with_cache_dedup, hns] at hd
    · intro hns
      exact ⟨fun env args kwargs =>
        wrapper { ns := ns, max_distance := d, ttl_seconds := ttl, top_k := k } kf env args kwargs,
        by simp [wrap_with_cache_dedup, hns]⟩
  · intro deco hd env args kwargs e he
    by_cases hns : ns = ""
    · simp [wrap_with_cache_dedup, hns] at hd
    · simp only [wrap_with_cache_dedup, if_neg hns] at hd
      rw [Except.ok.injEq] at hd
      subst hd
      exact wrapper_error_from_fn _ _ _ _ _ _ he

/-- C6 witness: empty namespace raises at decoration time; namespace `demo`
constructs a decorator whose surfaced error on a concrete call is the wrapped
operation's. -/
theorem C6_namespace_validation_witness :
    (∃ e, wrap_with_cache_dedup ("") (1/2) (some 3600) 1 none = .error e) ∧
    (∃ deco, wrap_with_cache_dedup ("demo") (1/2) (some 3600) 1 none = .ok deco) ∧
    envAllFail.fnResult = .error 7 := by
  refine ⟨?_, ?_, ?_⟩
  · exact (C6_namespace_validation ("") (1/2) (some 3600) 1 none).1.2 rfl
  · exact (C6_namespace_validation ("demo") (1/2) (some 3600) 1 none).2.1.2 (by decide)
  · exact (C6_namespace_validation ("demo") (1/2) (some 3600) 1 none).2.2 _ rfl
      envAllFail [] [] 7 rfl

/-- C7: the cache-identifier derivation is a pure deterministic function of
(namespace, query) of the form dedup:<namespace>:<hex digest>, where the digest
is the SHA-1 hex digest of the UTF-8 encoding of the query. -/
theorem C7_cache_id_deterministic_form (n q : String) :
    _make_cache_id n q = _make_cache_id n q ∧ _make_cache_id n q = derive_spec n q :=
  ⟨rfl, rfl⟩

/-- C9: a provided key function returning a string with non-empty strip is used
as the cache query verbatim, over any keyword and positional arguments; a
raising key function is swallowed and resolution falls through exactly as if no
key function were supplied. -/
theorem C9_keyfn_precedence (args : List PyVal) (kwargs : List (String × PyVal))
    (f : KeyFn) (key : String) :
    (f args kwargs = .ok (.str key) → pyStrip key ≠ "" →
      _extract_query args kwargs (some f) = some key) ∧
    (∀ e, f args kwargs = .error e →
      _extract_query args kwargs (some f) = _extract_query args kwargs none) := by
  constructor
  · intro hf hk
    simp only [_extract_query, keyFnQuery]
    rw [hf]
    simp [hk]
  · intro e hf
    simp only [_extract_query, keyFnQuery]
    rw [hf]

/-- C9 witness: the key `K` wins over keyword `prompt` and a positional string;
a raising key function falls back to the keyword path, which strips and uses
`prompt`. -/
theorem C9_keyfn_precedence_witness :
    keyFnOkW [PyVal.str ("pos")] [("prompt", PyVal.str ("P"))] = .ok (.str ("K")) ∧
    pyStrip ("K") ≠ "" ∧
    _extract_query [PyVal.str ("pos")] [("prompt", PyVal.str ("P"))] (some keyFnOkW)
      = some ("K") ∧
    keyFnRaiseW [PyVal.str ("pos")] [("prompt", PyVal.str ("P"))] = .error 3 ∧
    _extract_query [PyVal.str ("pos")] [("prompt", PyVal.str ("P"))] (some keyFnRaiseW)
      = _extract_query [PyVal.str ("pos")] [("prompt", PyVal.str ("P"))] none ∧
    _extract_query [PyVal.str ("pos")] [("prompt", PyVal.str ("P"))] none = some ("P") := by
  refine ⟨rfl, by decide, ?_, rfl, ?_, by decide⟩
  · exact (C9_keyfn_precedence [PyVal.str ("pos")] [("prompt", PyVal.str ("P"))]
      keyFnOkW ("K")).1 rfl (by decide)
  · exact (C9_keyfn_precedence [PyVal.str ("pos")] [("prompt", PyVal.str ("P"))]
      keyFnRaiseW ("K")).2 3 rfl

/-- C10: every cache.write body's meta contains exactly the keys response,
query, cache_id — serialized_args is never included, because when it is
computed it is itself the cache query, so the inclusion guard never holds. -/
theorem C10_write_meta_keys (cfg : Config) (kf : Option KeyFn) (env : CallEnv)
    (args : List PyVal) (kwargs : List (String × PyVal)) (body : WriteBody)
    (h : Event.writeReq body ∈ (wrapper cfg kf env args kwargs).2) :
    body.meta.map Prod.fst = ["response", "query", "cache_id"] := by
  obtain ⟨r, _, hbody⟩ := wrapper_write_bodies cfg kf env args kwargs body h
  subst hbody
  exact writeMeta_keys _ _ _ _
    (fun s hs => resolveQuery_fst_eq_snd args kwargs kf s hs)

/-- C10 witness: a concrete miss call whose trace contains one write request,
whose meta keys are exactly response, query, cache_id. -/
theorem C10_write_meta_keys_witness :
    Event.writeReq (buildWriteBody cfgW ("hello") none ("fresh"))
      ∈ (wrapper cfgW none envLookupDown [PyVal.str ("hello")] []).2 ∧
    (buildWriteBody cfgW ("hello") none ("fresh")).meta.map Prod.fst
      = ["response", "query", "cache_id"] := by
  have hm : Event.writeReq (buildWriteBody cfgW ("hello") none ("fresh"))
      ∈ (wrapper cfgW none envLookupDown [PyVal.str ("hello")] []).2 :=
    List.Mem.tail _ (List.Mem.tail _ (List.Mem.head _))
  exact ⟨hm, C10_write_meta_keys cfgW none envLookupDown [PyVal.str ("hello")] [] _ hm⟩

/-- C3: the similarity threshold is inclusive and only the first candidate is
consulted: with an exact miss and a best candidate scoring `sc`, a score equal
to (or below) max_distance leads to fetching that candidate's record — the
lookup outcome is exactly that fetch's outcome — while a score strictly above
max_distance is a miss with no second fetch; later candidates never matter. -/
theorem C3_threshold_inclusive_first_only (cfg : Config) (g : String → Except Err HttpResp)
    (w : Except Err HttpResp) (fr : Except Err String) (q iid : String) (sc : ℚ)
    (rest : List JVal)
    (hx : _fetch_cache_record g (_make_cache_id cfg.ns q) = .ok none) :
    (sc ≤ cfg.max_distance →
      (lookupPhase cfg ⟨g, searchRespOf (candidate iid sc :: rest), w, fr⟩ q).1 =
        _fetch_cache_record g iid) ∧
    (cfg.max_distance < sc →
      (lookupPhase cfg ⟨g, searchRespOf (candidate iid sc :: rest), w, fr⟩ q).1 = .ok none ∧
      List.countP Event.isFetch
        (lookupPhase cfg ⟨g, searchRespOf (candidate iid sc :: rest), w, fr⟩ q).2 = 1) ∧
    (lookupPhase cfg ⟨g, searchRespOf (candidate iid sc :: rest), w, fr⟩ q =
      lookupPhase cfg ⟨g, searchRespOf [candidate iid sc], w, fr⟩ q) := by
  have hred : ∀ rest' : List JVal,
      lookupPhase cfg ⟨g, searchRespOf (candidate iid sc :: rest'), w, fr⟩ q =
        (if decide (sc ≤ cfg.max_distance) then
          (match _fetch_cache_record g iid with
           | .error e => (.error e, [Event.fetch (_make_cache_id cfg.ns q),
               Event.searchReq cfg.ns q cfg.top_k, Event.fetch iid])
           | .ok (some doc) => (.ok (some doc), [Event.fetch (_make_cache_id cfg.ns q),
               Event.searchReq cfg.ns q cfg.top_k, Event.fetch iid])
           | .ok none => (.ok none, [Event.fetch (_make_cache_id cfg.ns q),
               Event.searchReq cfg.ns q cfg.top_k, Event.fetch iid]))
         else (.ok none, [Event.fetch (_make_cache_id cfg.ns q),
             Event.searchReq cfg.ns q cfg.top_k])) := by
    intro rest'
    unfold lookupPhase
    rw [hx]
    simp [searchRespOf, candidate, scoreOf, resultsAsList, JVal.dictGet, JVal.dictItem,
      JVal.paramString, ScoreV.le, List.lookup]
  refine ⟨?_, ?_, ?_⟩
  · intro hsc
    rw [hred rest, if_pos (by simpa using hsc)]
    rcases hf : _fetch_cache_record g iid with e | (_ | s) <;> simp
  · intro hsc
    have hn : ¬ (decide (sc ≤ cfg.max_distance) = true) := by simp; linarith
    rw [hred rest, if_neg hn]
    exact ⟨rfl, rfl⟩
  · rw [hred rest, hred []]

/-- C3 witness: the boundary score 1/2 = max_distance is accepted and yields the
cached record; score 501/1000 is rejected with a single fetch even though a
later candidate scores 0; the outcome ignores the later candidates. -/
theorem C3_threshold_inclusive_first_only_witness :
    _fetch_cache_record (getOnly ("X") ("cached")) (_make_cache_id cfgW.ns ("q"))
      = .ok none ∧
    ((1 : ℚ)/2 ≤ cfgW.max_distance) ∧
    (lookupPhase cfgW ⟨getOnly ("X") ("cached"),
        searchRespOf (candidate ("X") (1/2) :: [candidate ("Y") 0]), .error 9, .ok ("fresh")⟩
        ("q")).1 = _fetch_cache_record (getOnly ("X") ("cached")) ("X") ∧
    _fetch_cache_record (getOnly ("X") ("cached")) ("X") = .ok (some ("cached")) ∧
    (cfgW.max_distance < 501/1000) ∧
    (lookupPhase cfgW ⟨getOnly ("X") ("cached"),
        searchRespOf (candidate ("X") (501/1000) :: [candidate ("Y") 0]), .error 9,
        .ok ("fresh")⟩ ("q")).1 = .ok none ∧
    List.countP Event.isFetch
      (lookupPhase cfgW ⟨getOnly ("X") ("cached"),
        searchRespOf (candidate ("X") (501/1000) :: [candidate ("Y") 0]), .error 9,
        .ok ("fresh")⟩ ("q")).2 = 1 ∧
    lookupPhase cfgW ⟨getOnly ("X") ("cached"),
        searchRespOf (candidate ("X") (1/2) :: [candidate ("Y") 0]), .error 9, .ok ("fresh")⟩
        ("q")
      = lookupPhase cfgW ⟨getOnly ("X") ("cached"),
        searchRespOf [candidate ("X") (1/2)], .error 9, .ok ("fresh")⟩ ("q") := by
  have hx : _fetch_cache_record (getOnly ("X") ("cached")) (_make_cache_id cfgW.ns ("q"))
      = .ok none := by rfl
  have hacc := C3_threshold_inclusive_first_only cfgW (getOnly ("X") ("cached")) (.error 9)
    (.ok ("fresh")) ("q") ("X") (1/2) [candidate ("Y") 0] hx
  have hrej := C3_threshold_inclusive_first_only cfgW (getOnly ("X") ("cached")) (.error 9)
    (.ok ("fresh")) ("q") ("X") (501/1000) [candidate ("Y") 0] hx
  have haccle : (1 : ℚ)/2 ≤ cfgW.max_distance := by norm_num [cfgW]
  have hrejlt : cfgW.max_distance < 501/1000 := by norm_num [cfgW]
  exact ⟨hx, haccle, hacc.1 haccle, by rfl, hrejlt, (hrej.2.1 hrejlt).1,
    (hrej.2.1 hrejlt).2, hacc.2.2⟩

/-! ## Injectivity of the identifier derivation (C8) -/

/-- Mixed-radix combination bound. -/
theorem combine_lt {a b M N : Nat} (ha : a < M) (hb : b < N) : a * N + b < M * N := by
  calc a * N + b < a * N + N := by omega
    _ = (a + 1) * N := by ring
    _ ≤ M * N := Nat.mul_le_mul_right N ha

/-- The combined digest value is below 2^160. -/
theorem combineDigest_lt (st : Sha1State) : combineDigest st < 2 ^ 160 := by
  have hM : 0 < 4294967296 := by norm_num
  have h0 : st.h0 % 4294967296 < 4294967296 := Nat.mod_lt _ hM
  have h1 : st.h1 % 4294967296 < 4294967296 := Nat.mod_lt _ hM
  have h2 : st.h2 % 4294967296 < 4294967296 := Nat.mod_lt _ hM
  have h3 : st.h3 % 4294967296 < 4294967296 := Nat.mod_lt _ hM
  have h4 : st.h4 % 4294967296 < 4294967296 := Nat.mod_lt _ hM
  have g4 := combine_lt (combine_lt (combine_lt (combine_lt h0 h1) h2) h3) h4
  have he : (((4294967296 * 4294967296) * 4294967296) * 4294967296) * 4294967296 = 2 ^ 160 := by
    norm_num
  unfold combineDigest
  rw [← he]
  exact g4

/-- SHA-1 digests take fewer than 2^160 values. -/
theorem sha1DigestNat_lt (msg : List Nat) : sha1DigestNat msg < 2 ^ 160 :=
  combineDigest_lt _

/-- The fixed-width hex rendering has the requested length. -/
theorem hexFixed_length (l n : Nat) : (hexFixed l n).length = l := by
  induction l generalizing n with
  | zero => rfl
  | succ l ih => simp [hexFixed, ih]

/-- Hex digits of distinct values below 16 are distinct. -/
theorem hexDigitChar_inj : ∀ a < 16, ∀ b < 16, hexDigitChar a = hexDigitChar b → a = b := by
  decide

/-- The fixed-width hex rendering is injective below its capacity. -/
theorem hexFixed_inj : ∀ l n m, n < 16 ^ l → m < 16 ^ l → hexFixed l n = hexFixed l m → n = m := by
  intro l
  induction l with
  | zero =>
    intro n m hn hm _
    simp [Nat.pow_zero] at hn hm
    omega
  | succ l ih =>
    intro n m hn hm h
    unfold hexFixed at h
    have hlen : (hexFixed l (n / 16)).length = (hexFixed l (m / 16)).length := by
      simp [hexFixed_length]
    obtain ⟨h1, h2⟩ := List.append_inj h hlen
    have hd : hexDigitChar (n % 16) = hexDigitChar (m % 16) := by simpa using h2
    have hmod : n % 16 = m % 16 :=
      hexDigitChar_inj _ (Nat.mod_lt _ (by norm_num)) _ (Nat.mod_lt _ (by norm_num)) hd
    have hq : n / 16 = m / 16 := by
      apply ih
      · exact (Nat.div_lt_iff_lt_mul (by norm_num)).2 (by rw [← Nat.pow_succ]; exact hn)
      · exact (Nat.div_lt_iff_lt_mul (by norm_num)).2 (by rw [← Nat.pow_succ]; exact hm)
      · exact h1
    omega

/-- Equal identifiers under one namespace force equal SHA-1 digest values. -/
theorem cache_id_digest_inj (n q1 q2 : String)
    (h : _make_cache_id n q1 = _make_cache_id n q2) :
    sha1DigestNat (utf8Encode q1) = sha1DigestNat (utf8Encode q2) := by
  have hd := congrArg String.data h
  simp only [_make_cache_id, sha1Hexdigest, String.data_append] at hd
  have hl := List.append_cancel_left hd
  exact hexFixed_inj 40 _ _
    (by have := sha1DigestNat_lt (utf8Encode q1); norm_num at this ⊢; omega)
    (by have := sha1DigestNat_lt (utf8Encode q2); norm_num at this ⊢; omega)
    hl

/-- The boolean-vector strings are pairwise distinct. -/
theorem boolStr_inj {b1 b2 : Fin 161 → Bool} (h : boolStr b1 = boolStr b2) : b1 = b2 := by
  have hf : (List.ofFn fun i => if b1 i then 'b' else 'a')
      = (List.ofFn fun i => if b2 i then 'b' else 'a') := congrArg String.data h
  have hfn := List.ofFn_injective hf
  funext i
  have hi := congrFun hfn i
  cases hb1 : b1 i <;> cases hb2 : b2 i <;> rw [hb1, hb2] at hi <;> simp at hi

/-- The boolean-vector strings are non-empty. -/
theorem boolStr_ne_empty (b : Fin 161 → Bool) : boolStr b ≠ "" := by
  intro h
  have hlen := congrArg (fun s => s.data.length) h
  simp [boolStr] at hlen

/-- C8 counterexample: unconditional injectivity of the derivation fails — by
pigeonhole over the 2^161 distinct non-empty 161-character strings and the at
most 2^160 digest values, two distinct non-empty queries share an identifier. -/
theorem C8_counterexample :
    ¬ (∀ n q1 q2 : String, q1 ≠ "" → q2 ≠ "" → q1 ≠ q2 →
        _make_cache_id n q1 ≠ _make_cache_id n q2) := by
  intro hclaim
  have hcard : Fintype.card (Fin (2 ^ 160)) < Fintype.card (Fin 161 → Bool) := by
    have h1 : Fintype.card (Fin (2 ^ 160)) = 2 ^ 160 := Fintype.card_fin _
    have h2 : Fintype.card (Fin 161 → Bool) = 2 ^ 161 := by
      rw [Fintype.card_fun, Fintype.card_bool, Fintype.card_fin]
    rw [h1, h2]
    exact Nat.pow_lt_pow_right (by norm_num) (by norm_num)
  obtain ⟨b1, b2, hne, heq⟩ :=
    Fintype.exists_ne_map_eq_of_card_lt
      (fun b : Fin 161 → Bool =>
        (⟨sha1DigestNat (utf8Encode (boolStr b)), sha1DigestNat_lt _⟩ : Fin (2 ^ 160))) hcard
  have hdig : sha1DigestNat (utf8Encode (boolStr b1))
      = sha1DigestNat (utf8Encode (boolStr b2)) := congrArg Fin.val heq
  have hid : _make_cache_id ("ns") (boolStr b1) = _make_cache_id ("ns") (boolStr b2) := by
    unfold _make_cache_id sha1Hexdigest
    rw [hdig]
  exact hclaim ("ns") (boolStr b1) (boolStr b2) (boolStr_ne_empty b1) (boolStr_ne_empty b2)
    (fun hs => hne (boolStr_inj hs)) hid

/-- C8 (amended): for every fixed namespace, distinct queries whose SHA-1
digests differ derive distinct cache identifiers (injectivity up to hash
collisions — unconditional injectivity is impossible for a 160-bit digest). -/
theorem C8_distinct_digests_distinct_ids (n q1 q2 : String)
    (h : sha1DigestNat (utf8Encode q1) ≠ sha1DigestNat (utf8Encode q2)) :
    _make_cache_id n q1 ≠ _make_cache_id n q2 :=
  fun he => h (cache_id_digest_inj n q1 q2 he)

/-- C8 witness: the queries `a` and `b` have different digests, hence different
identifiers under the namespace `demo`. -/
theorem C8_distinct_digests_distinct_ids_witness :
    sha1DigestNat (utf8Encode ("a")) ≠ sha1DigestNat (utf8Encode ("b")) ∧
    _make_cache_id ("demo") ("a") ≠ _make_cache_id ("demo") ("b") :=
  ⟨by decide, C8_distinct_digests_distinct_ids ("demo") ("a") ("b") (by decide)⟩
